import Mathlib

/-!
# Spherical video carousel (`carousel.js`)

A shallow embedding of the two constructors `Carousel` and `VideoPane` and of the
methods `initVideoPanes`, `initMaterials`, `initSphereMesh`, `setupScene` and
`animate`.

JavaScript objects that are shared by reference (a pane's canvas, texture and
material) carry the allocation index of the pane that created them, so that
"the same object" is "the same index".  Numbers that the program only stores and
compares (playback times) are rationals; the one number the program computes
with, the rotation angle, goes through a model of IEEE-754 binary64 rounding.
-/

namespace VideoWall

/-! ## Host and library objects -/

/-- Handle of an external video element; the carousel never owns the element. -/
abbrev Video := Nat

/-- What one animation tick can read from a video element. -/
structure VideoState where
  readyState : Nat
  HAVE_ENOUGH_DATA : Nat
  currentTime : ℚ
  frame : Nat
  deriving DecidableEq

/-- A `{width, height}` record, used for pane dimensions and sphere segments. -/
structure Dimensions where
  width : Nat
  height : Nat
  deriving DecidableEq

/-- One face of a geometry.  `materialIndex` is a JavaScript number: `none` is `NaN`. -/
structure Face where
  vertices : List Nat
  materialIndex : Option Nat
  deriving DecidableEq

/-- A `THREE.SphereGeometry` value as far as the carousel reads it. -/
structure Geometry where
  radius : ℚ
  widthSegments : Nat
  heightSegments : Nat
  faces : List Face
  deriving DecidableEq

/-- The browser window and the three.js geometry constructor, both outside
`carousel.js`. -/
structure Host where
  innerWidth : Nat
  innerHeight : Nat
  SphereGeometry : ℚ → Nat → Nat → Geometry

/-- Modelled from the spec: `THREE.SphereGeometry` is library code that is not part of
`carousel.js`; the spec gives its face count as segment-width × segment-height.  Each
face starts with material index 0. -/
def specSphereGeometry (radius : ℚ) (widthSegments heightSegments : Nat) : Geometry :=
  { radius := radius
    widthSegments := widthSegments
    heightSegments := heightSegments
    faces := List.replicate (widthSegments * heightSegments)
      { vertices := [], materialIndex := some 0 } }

/-- A host whose sphere geometry is the one the spec describes. -/
def specHost (innerWidth innerHeight : Nat) : Host :=
  { innerWidth := innerWidth
    innerHeight := innerHeight
    SphereGeometry := specSphereGeometry }

/-! ## IEEE-754 binary64 rounding -/

/-- Nearest natural number to `n / d`, ties to the even one. -/
def roundHalfEven (n d : Nat) : Nat :=
  let q := n / d
  let r := n % d
  if 2 * r < d then q
  else if d < 2 * r then q + 1
  else if q % 2 = 0 then q
  else q + 1

/-- Number of halvings that bring `n` below 2, at most `fuel` of them. -/
def log2Fuel : Nat → Nat → Nat
  | 0, _ => 0
  | fuel + 1, n => if n < 2 then 0 else log2Fuel fuel (n / 2) + 1

/-- Floor of the binary logarithm of a positive natural number. -/
def log2 (n : Nat) : Nat := log2Fuel n n

/-- Exponent `e` with `2 ^ e ≤ n / d < 2 ^ (e + 1)`, for positive `n` and `d`. -/
def floorLog2 (n d : Nat) : Int :=
  let a := log2 n
  let b := log2 d
  if n * 2 ^ b < d * 2 ^ a then (a : Int) - (b : Int) - 1 else (a : Int) - (b : Int)

/-- The binary64 value nearest to the rational `x`: 53 significant bits, round to
nearest, ties to even, gradual underflow below `2 ^ (-1022)`.  Overflow to an infinity
is not represented: the only arithmetic in `carousel.js` subtracts `0.0002` from a
finite double, which stays finite. -/
def roundDouble (x : ℚ) : ℚ :=
  if x = 0 then 0
  else
    let n := x.num.natAbs
    let d := x.den
    let k : Int := max (floorLog2 n d) (-1022) - 52
    let v : ℚ :=
      if 0 ≤ k then ((roundHalfEven n (d * 2 ^ k.toNat) * 2 ^ k.toNat : Nat) : ℚ)
      else mkRat (roundHalfEven (n * 2 ^ (-k).toNat) d) (2 ^ (-k).toNat)
    if x < 0 then -v else v

/-- The number denoted by the source literal `0.0002`. -/
def rotationStep : ℚ := roundDouble (2 / 10000)

/-- JavaScript `a - b` on finite numbers. -/
def jsSub (a b : ℚ) : ℚ := roundDouble (a - b)

/-- JavaScript `a * b` on finite numbers. -/
def jsMul (a b : ℚ) : ℚ := roundDouble (a * b)

/-- JavaScript `a / b` on non-negative integers; `none` is a non-finite result. -/
def jsDiv (a b : Nat) : Option ℚ :=
  if b = 0 then none else some (roundDouble ((a : ℚ) / (b : ℚ)))

/-- JavaScript `i % n` on non-negative integers: `none` is `NaN`, the result for
`n = 0`. -/
def jsMod (i n : Nat) : Option Nat :=
  if n = 0 then none else some (i % n)

/-! ## VideoPane -/

/-- A drawing call made on a canvas through its 2D context. -/
inductive DrawOp where
  | fillRect (fillStyle : String) (x y w h : Nat)
  | drawImage (video : Video) (frame : Nat) (x y w h : Nat)
  deriving DecidableEq

/-- An offscreen canvas: its size and the drawing calls applied to it, oldest first. -/
structure Canvas where
  id : Nat
  width : Nat
  height : Nat
  ops : List DrawOp
  deriving DecidableEq

/-- A transform applied to a 2D context. -/
inductive Transform where
  | translate (x y : Int)
  | scale (x y : Int)
  deriving DecidableEq

/-- The state of a 2D context; `canvas` is the canvas it draws on. -/
structure Context2D where
  canvas : Nat
  transforms : List Transform
  fillStyle : String
  deriving DecidableEq

/-- The three.js texture constants the source assigns. -/
inductive TextureConstant where
  | LinearFilter
  | RepeatWrapping
  deriving DecidableEq

/-- A `THREE.Texture` over the canvas `image`. -/
structure Texture where
  id : Nat
  image : Nat
  minFilter : TextureConstant
  magFilter : TextureConstant
  wrapS : TextureConstant
  wrapT : TextureConstant
  repeatX : Nat
  repeatY : Nat
  needsUpdate : Bool
  deriving DecidableEq

/-- The side constant the source assigns. -/
inductive Side where
  | BackSide
  deriving DecidableEq

/-- A `THREE.MeshBasicMaterial`; `map` is the texture it samples. -/
structure Material where
  map : Nat
  side : Side
  deriving DecidableEq

/-- A `VideoPane` object.  `id` is the allocation index shared by the objects the
constructor creates. -/
structure VideoPane where
  id : Nat
  video : Video
  lastDrawTime : ℚ
  canvas : Canvas
  context : Context2D
  texture : Texture
  material : Material
  deriving DecidableEq

/-- `VideoPane.prototype.initCanvas`. -/
def VideoPane.initCanvas (id width height : Nat) : Canvas :=
  { id := id, width := width, height := height, ops := [] }

/-- `VideoPane.prototype.initContext`: mirror transform, then a black fill. -/
def VideoPane.initContext (canvas : Canvas) : Context2D × Canvas :=
  ({ canvas := canvas.id
     transforms := [Transform.translate canvas.width 0, Transform.scale (-1) 1]
     fillStyle := "#000000" },
   { canvas with ops := canvas.ops ++ [DrawOp.fillRect "#000000" 0 0 canvas.width canvas.height] })

/-- `VideoPane.prototype.initTexture`. -/
def VideoPane.initTexture (canvas : Canvas) (segments : Dimensions) : Texture :=
  { id := canvas.id
    image := canvas.id
    minFilter := TextureConstant.LinearFilter
    magFilter := TextureConstant.LinearFilter
    wrapS := TextureConstant.RepeatWrapping
    wrapT := TextureConstant.RepeatWrapping
    repeatX := segments.width
    repeatY := segments.height
    needsUpdate := false }

/-- `VideoPane.prototype.initMaterial`. -/
def VideoPane.initMaterial (texture : Texture) : Material :=
  { map := texture.id, side := Side.BackSide }

/-- The constructor `VideoPane(video, dimensions, segments)`; `id` is the index of the
allocation. -/
def VideoPane.new (id : Nat) (video : Video) (dimensions segments : Dimensions) :
    VideoPane :=
  let canvas0 := VideoPane.initCanvas id dimensions.width dimensions.height
  let (context, canvas) := VideoPane.initContext canvas0
  let texture := VideoPane.initTexture canvas segments
  { id := id
    video := video
    lastDrawTime := -1
    canvas := canvas
    context := context
    texture := texture
    material := VideoPane.initMaterial texture }

/-! ## Carousel -/

/-- A `THREE.WebGLRenderer`: its size, whether its element is in the page, and the
number of `render` calls made. -/
structure Renderer where
  width : Nat
  height : Nat
  attached : Bool
  frames : Nat
  deriving DecidableEq

/-- The objects a scene can hold. -/
inductive SceneObject where
  | sphere
  deriving DecidableEq

/-- A `THREE.Scene`. -/
structure Scene where
  children : List SceneObject
  deriving DecidableEq

/-- A `THREE.PerspectiveCamera`. -/
structure Camera where
  fov : ℚ
  aspect : Option ℚ
  near : ℚ
  far : ℚ
  positionZ : ℚ
  deriving DecidableEq

/-- A `THREE.Mesh` over a `THREE.MeshFaceMaterial(materials)`. -/
structure Mesh where
  geometry : Geometry
  materials : List Material
  positionZ : ℚ
  rotationY : ℚ
  deriving DecidableEq

/-- A `Carousel` object; `frameRequests` counts its calls of `requestAnimationFrame`. -/
structure Carousel where
  videoDimensions : Dimensions
  sphereDepth : ℚ
  sphereSegments : Dimensions
  sphereFaces : Nat
  initialCameraPosition : ℚ
  renderer : Renderer
  scene : Scene
  camera : Camera
  videoPanes : List VideoPane
  materials : List Material
  sphere : Mesh
  frameRequests : Nat

/-- `Carousel.prototype.initRenderer`. -/
def Carousel.initRenderer (host : Host) : Renderer :=
  { width := host.innerWidth, height := host.innerHeight, attached := false, frames := 0 }

/-- `Carousel.prototype.initScene`. -/
def Carousel.initScene : Scene := { children := [] }

/-- `Carousel.prototype.initCamera`. -/
def Carousel.initCamera (host : Host) (depth position : ℚ) : Camera :=
  { fov := 45
    aspect := jsDiv host.innerWidth host.innerHeight
    near := 1
    far := depth
    positionZ := position }

/-- The loop of `initVideoPanes` from index `i` on. -/
def Carousel.initVideoPanesFrom (dimensions segments : Dimensions) :
    Nat → List Video → List VideoPane
  | _, [] => []
  | i, video :: rest =>
    VideoPane.new i video dimensions segments ::
      Carousel.initVideoPanesFrom dimensions segments (i + 1) rest

/-- `Carousel.prototype.initVideoPanes`.  The source comment speaks of calculated
positions; the loop computes none, a pane is built from the video, the dimensions and
the segments only. -/
def Carousel.initVideoPanes (videos : List Video) (dimensions segments : Dimensions) :
    List VideoPane :=
  Carousel.initVideoPanesFrom dimensions segments 0 videos

/-- `Carousel.prototype.initMaterials`; the parameter `faces` is not read. -/
def Carousel.initMaterials : List VideoPane → Nat → List Material
  | [], _ => []
  | pane :: rest, faces => pane.material :: Carousel.initMaterials rest faces

/-- The loop of `initSphereMesh` from face index `i` on, over `n` materials. -/
def Carousel.assignMaterialIndex (n : Nat) : Nat → List Face → List Face
  | _, [] => []
  | i, face :: rest =>
    { face with materialIndex := jsMod i n } :: Carousel.assignMaterialIndex n (i + 1) rest

/-- `Carousel.prototype.initSphereMesh`.  A new `THREE.Mesh` is at position 0 with
rotation 0. -/
def Carousel.initSphereMesh (host : Host) (sphereDepth : ℚ) (sphereSegments : Dimensions)
    (materials : List Material) : Mesh :=
  let geometry := host.SphereGeometry (sphereDepth / 2) sphereSegments.width sphereSegments.height
  { geometry :=
      { geometry with faces := Carousel.assignMaterialIndex materials.length 0 geometry.faces }
    materials := materials
    positionZ := 0
    rotationY := 0 }

/-- The constructor `Carousel(videos)`. -/
def Carousel.new (host : Host) (videos : List Video) : Carousel :=
  let videoDimensions : Dimensions := { width := 1024, height := 1024 }
  let sphereDepth : ℚ := 6000
  let sphereSegments : Dimensions := { width := 50, height := 50 }
  let sphereFaces := sphereSegments.width * sphereSegments.height
  let initialCameraPosition : ℚ := 1500
  let videoPanes := Carousel.initVideoPanes videos videoDimensions sphereSegments
  let materials := Carousel.initMaterials videoPanes sphereFaces
  { videoDimensions := videoDimensions
    sphereDepth := sphereDepth
    sphereSegments := sphereSegments
    sphereFaces := sphereFaces
    initialCameraPosition := initialCameraPosition
    renderer := Carousel.initRenderer host
    scene := Carousel.initScene
    camera := Carousel.initCamera host sphereDepth initialCameraPosition
    videoPanes := videoPanes
    materials := materials
    sphere := Carousel.initSphereMesh host sphereDepth sphereSegments materials
    frameRequests := 0 }

/-- `Carousel.prototype.setupScene`. -/
def Carousel.setupScene (c : Carousel) : Carousel :=
  { c with
    sphere := { c.sphere with positionZ := c.sphereDepth / 2 }
    scene := { c.scene with children := c.scene.children ++ [SceneObject.sphere] }
    renderer := { c.renderer with attached := true } }

/-- The body of the pane loop of `animate` for one pane, `state` being what its video
reports during the tick. -/
def VideoPane.refresh (dimensions : Dimensions) (state : VideoState) (pane : VideoPane) :
    VideoPane :=
  let drawn : VideoPane :=
    if state.readyState = state.HAVE_ENOUGH_DATA ∧ pane.lastDrawTime ≠ state.currentTime then
      { pane with
        canvas :=
          { pane.canvas with
            ops := pane.canvas.ops ++
              [DrawOp.drawImage pane.video state.frame 0 0 dimensions.width dimensions.height] }
        lastDrawTime := state.currentTime }
    else pane
  { drawn with texture := { drawn.texture with needsUpdate := true } }

/-- One call of `Carousel.prototype.animate`; `world` gives what each video reports
during the tick.  The rotation statement is unconditional: the source comment `Rotate
when videos aren't playing` names a condition the code does not test. -/
def Carousel.animate (world : Video → VideoState) (c : Carousel) : Carousel :=
  { c with
    frameRequests := c.frameRequests + 1
    videoPanes := c.videoPanes.map (fun pane => pane.refresh c.videoDimensions (world pane.video))
    sphere := { c.sphere with rotationY := jsSub c.sphere.rotationY rotationStep }
    renderer := { c.renderer with frames := c.renderer.frames + 1 } }

/-- Successive ticks, one per element of `worlds`. -/
def Carousel.run (worlds : List (Video → VideoState)) (c : Carousel) : Carousel :=
  worlds.foldl (fun c world => Carousel.animate world c) c

/-! ## Derived notions used by the statements -/

/-- The material `THREE.MeshFaceMaterial` selects for face `i`: the entry of the
material list at the face's `materialIndex`. -/
def Mesh.faceMaterial (mesh : Mesh) (i : Nat) : Option Material :=
  match mesh.geometry.faces[i]? with
  | some face =>
    match face.materialIndex with
    | some j => mesh.materials[j]?
    | none => none
  | none => none

/-- Number of faces of the mesh whose material index is `k`. -/
def Mesh.facesWithMaterial (mesh : Mesh) (k : Nat) : Nat :=
  mesh.geometry.faces.countP (fun face => face.materialIndex = some k)

/-- A face's material index selects an entry of a list of `n` materials. -/
def Face.validIndex (face : Face) (n : Nat) : Prop :=
  ∃ j, face.materialIndex = some j ∧ j < n

/-- The data-model invariant: one material per pane, and every face of the sphere
points at a material. -/
def Carousel.Invariant (c : Carousel) : Prop :=
  c.materials.length = c.videoPanes.length ∧
    ∀ face ∈ c.sphere.geometry.faces, face.validIndex c.materials.length

/-- What identifies a pane: its allocation, its video and its material. -/
def VideoPane.identity (pane : VideoPane) : Nat × Video × Material :=
  (pane.id, pane.video, pane.material)

/-- Squared distance between two points of space. -/
def distSq (p q : ℝ × ℝ × ℝ) : ℝ :=
  (p.1 - q.1) ^ 2 + (p.2.1 - q.2.1) ^ 2 + (p.2.2 - q.2.2) ^ 2

/-- Where the camera is: on the z axis at `camera.position.z`, its other coordinates
being the three.js default 0. -/
def Carousel.cameraPoint (c : Carousel) : ℝ × ℝ × ℝ :=
  (0, 0, ((c.camera.positionZ : ℚ) : ℝ))

/-- Centre of the sphere mesh: on the z axis at `sphere.position.z`. -/
def Carousel.sphereCentre (c : Carousel) : ℝ × ℝ × ℝ :=
  (0, 0, ((c.sphere.positionZ : ℚ) : ℝ))

/-- Radius of the geometry the sphere mesh was built over. -/
def Carousel.sphereRadius (c : Carousel) : ℝ :=
  ((c.sphere.geometry.radius : ℚ) : ℝ)

/-- Depth of the point `p` in front of a camera that looks along the z axis, towards
negative z when `direction = -1` (the three.js default) and towards positive z when
`direction = 1`.  A point is between the near and the far plane when its depth is
between `near` and `far`. -/
def Carousel.viewDepth (c : Carousel) (direction : ℝ) (p : ℝ × ℝ × ℝ) : ℝ :=
  direction * (p.2.2 - c.cameraPoint.2.2)

/-! ## Sample inputs -/

/-- Four video handles on a host that has the sphere geometry of the spec. -/
def sampleCarousel : Carousel := Carousel.new (specHost 800 600) [10, 11, 12, 13]

/-- Every video has enough data and is at playback time 1/2, showing frame 3. -/
def playingWorld : Video → VideoState :=
  fun _ => { readyState := 4, HAVE_ENOUGH_DATA := 4, currentTime := 1 / 2, frame := 3 }

/-- Every video is still at `HAVE_CURRENT_DATA`. -/
def stalledWorld : Video → VideoState :=
  fun _ => { readyState := 2, HAVE_ENOUGH_DATA := 4, currentTime := 0, frame := 0 }

/-- The angle after one tick, as a function of the angle before it. -/
def tickAngle (a : ℚ) : ℚ := jsSub a rotationStep

/-! ## Checks of the rounding model -/

theorem log2Fuel_spec (fuel n : Nat) (hn : 0 < n) (hfuel : n ≤ fuel) :
    2 ^ log2Fuel fuel n ≤ n ∧ n < 2 ^ (log2Fuel fuel n + 1) := by
  induction fuel generalizing n with
  | zero => omega
  | succ fuel ih =>
    unfold log2Fuel
    by_cases h2 : n < 2
    · rw [if_pos h2]
      have : n = 1 := by omega
      subst this
      decide
    · rw [if_neg h2]
      have hih := ih (n / 2) (by omega) (by omega)
      have hdm := Nat.div_add_mod n 2
      have hmod : n % 2 < 2 := Nat.mod_lt _ (by decide)
      rw [pow_succ, pow_succ]
      constructor
      · omega
      · omega

theorem log2_spec (n : Nat) (hn : 0 < n) : 2 ^ log2 n ≤ n ∧ n < 2 ^ (log2 n + 1) :=
  log2Fuel_spec n n hn (Nat.le_refl n)

theorem roundHalfEven_near (n d : Nat) (hd : 0 < d) :
    2 * (roundHalfEven n d * d) ≤ 2 * n + d ∧ 2 * n ≤ 2 * (roundHalfEven n d * d) + d := by
  have hdm := Nat.div_add_mod n d
  have hmod : n % d < d := Nat.mod_lt _ hd
  have hc : n / d * d = d * (n / d) := Nat.mul_comm _ _
  have hs : (n / d + 1) * d = d * (n / d) + d := by rw [Nat.add_mul, Nat.one_mul, hc]
  unfold roundHalfEven
  simp only
  split_ifs <;> simp only [hc, hs] <;> constructor <;> omega

theorem roundDouble_examples :
    roundDouble (1 / 10) = mkRat 3602879701896397 (2 ^ 55) ∧
    roundDouble (roundDouble (1 / 10) + roundDouble (2 / 10)) = mkRat 1351079888211149 (2 ^ 52) ∧
    roundDouble (3 / 10) = mkRat 5404319552844595 (2 ^ 54) ∧
    roundDouble (1 / 2 ^ 1075) = 0 ∧
    roundDouble (3 / 2 ^ 1075) = mkRat 1 (2 ^ 1073) ∧
    roundDouble (2 ^ 53 + 1) = 2 ^ 53 ∧
    roundDouble (2 ^ 53 + 3) = 2 ^ 53 + 4 ∧
    roundDouble (-(2 ^ 53 + 3)) = -(2 ^ 53 + 4) := by
  decide!

/-! ## Lemmas about the construction loops -/

theorem initVideoPanesFrom_length (dimensions segments : Dimensions) (videos : List Video)
    (i : Nat) :
    (Carousel.initVideoPanesFrom dimensions segments i videos).length = videos.length := by
  induction videos generalizing i with
  | nil => rfl
  | cons v vs ih => simp [Carousel.initVideoPanesFrom, ih]

theorem initVideoPanesFrom_getElem (dimensions segments : Dimensions) (videos : List Video)
    (i k : Nat) :
    (Carousel.initVideoPanesFrom dimensions segments i videos)[k]? =
      (videos[k]?).map (fun v => VideoPane.new (i + k) v dimensions segments) := by
  induction videos generalizing i k with
  | nil => simp [Carousel.initVideoPanesFrom]
  | cons v vs ih =>
    cases k with
    | zero => simp [Carousel.initVideoPanesFrom]
    | succ k =>
      simp only [Carousel.initVideoPanesFrom, List.getElem?_cons_succ, ih]
      have h : i + 1 + k = i + (k + 1) := by omega
      rw [h]

theorem initMaterials_eq_map (panes : List VideoPane) (faces : Nat) :
    Carousel.initMaterials panes faces = panes.map (fun pane => pane.material) := by
  induction panes with
  | nil => rfl
  | cons p ps ih => simp [Carousel.initMaterials, ih]

theorem assignMaterialIndex_length (n : Nat) (faces : List Face) (i : Nat) :
    (Carousel.assignMaterialIndex n i faces).length = faces.length := by
  induction faces generalizing i with
  | nil => rfl
  | cons f fs ih => simp [Carousel.assignMaterialIndex, ih]

theorem assignMaterialIndex_getElem (n : Nat) (faces : List Face) (i k : Nat) :
    (Carousel.assignMaterialIndex n i faces)[k]? =
      (faces[k]?).map (fun face => { face with materialIndex := jsMod (i + k) n }) := by
  induction faces generalizing i k with
  | nil => simp [Carousel.assignMaterialIndex]
  | cons f fs ih =>
    cases k with
    | zero => simp [Carousel.assignMaterialIndex]
    | succ k =>
      simp only [Carousel.assignMaterialIndex, List.getElem?_cons_succ, ih]
      have h : i + 1 + k = i + (k + 1) := by omega
      rw [h]

theorem assignMaterialIndex_mem (n : Nat) (faces : List Face) (i : Nat) (face : Face)
    (h : face ∈ Carousel.assignMaterialIndex n i faces) :
    ∃ j, face.materialIndex = jsMod j n := by
  induction faces generalizing i with
  | nil => simp [Carousel.assignMaterialIndex] at h
  | cons f fs ih =>
    simp only [Carousel.assignMaterialIndex, List.mem_cons] at h
    rcases h with h | h
    · exact ⟨i, by rw [h]⟩
    · exact ih (i + 1) h

theorem jsMod_of_pos (i n : Nat) (h : 0 < n) : jsMod i n = some (i % n) := by
  simp [jsMod, Nat.pos_iff_ne_zero.mp h]

/-! ## Construction: panes, materials, face assignment -/

/-- C1: constructing a Carousel from a list of videos yields as many panes as videos,
pane `k` wrapping video `k`, and as many materials as videos, material `k` being the
material of pane `k`.  It holds for every list, so for every list of N ≥ 1 videos. -/
theorem construct_panes_and_materials (host : Host) (videos : List Video) :
    (Carousel.new host videos).videoPanes.length = videos.length ∧
    (∀ k, k < videos.length →
      ((Carousel.new host videos).videoPanes[k]?).map (fun pane => pane.video) = videos[k]?) ∧
    (Carousel.new host videos).materials.length = videos.length ∧
    (∀ k, k < videos.length →
      (Carousel.new host videos).materials[k]? =
        ((Carousel.new host videos).videoPanes[k]?).map (fun pane => pane.material)) := by
  refine ⟨?_, ?_, ?_, ?_⟩
  · simp [Carousel.new, Carousel.initVideoPanes, initVideoPanesFrom_length]
  · intro k _
    simp only [Carousel.new, Carousel.initVideoPanes, initVideoPanesFrom_getElem]
    cases videos[k]? <;> simp [VideoPane.new, VideoPane.initContext]
  · simp [Carousel.new, Carousel.initVideoPanes, initMaterials_eq_map,
      initVideoPanesFrom_length]
  · intro k _
    simp [Carousel.new, initMaterials_eq_map]

/-- C2: with N ≥ 1 materials, `initSphereMesh` gives face `i` of the geometry the
material index `i mod N`, so the face is drawn with `materials[i mod N]`; with four
materials, faces 0 and 4 get material 0 and face 5 gets material 1. -/
theorem initSphereMesh_round_robin (host : Host) (sphereDepth : ℚ)
    (sphereSegments : Dimensions) (materials : List Material)
    (hN : 1 ≤ materials.length) :
    (∀ i, i < (host.SphereGeometry (sphereDepth / 2) sphereSegments.width
          sphereSegments.height).faces.length →
      (((Carousel.initSphereMesh host sphereDepth sphereSegments materials).geometry.faces[i]?).map
          (fun face => face.materialIndex) = some (some (i % materials.length)) ∧
        (Carousel.initSphereMesh host sphereDepth sphereSegments materials).faceMaterial i =
          materials[i % materials.length]? ∧
        (materials[i % materials.length]?).isSome = true)) ∧
    (materials.length = 4 →
      5 < (host.SphereGeometry (sphereDepth / 2) sphereSegments.width
          sphereSegments.height).faces.length →
      ((Carousel.initSphereMesh host sphereDepth sphereSegments materials).geometry.faces.map
          (fun face => face.materialIndex))[0]? = some (some 0) ∧
      ((Carousel.initSphereMesh host sphereDepth sphereSegments materials).geometry.faces.map
          (fun face => face.materialIndex))[4]? = some (some 0) ∧
      ((Carousel.initSphereMesh host sphereDepth sphereSegments materials).geometry.faces.map
          (fun face => face.materialIndex))[5]? = some (some 1)) := by
  have key : ∀ i, i < (host.SphereGeometry (sphereDepth / 2) sphereSegments.width
      sphereSegments.height).faces.length →
      ∃ face, (Carousel.initSphereMesh host sphereDepth sphereSegments materials).geometry.faces[i]?
        = some face ∧ face.materialIndex = some (i % materials.length) := by
    intro i hi
    simp only [Carousel.initSphereMesh, assignMaterialIndex_getElem, Nat.zero_add]
    rw [List.getElem?_eq_getElem hi]
    exact ⟨_, rfl, jsMod_of_pos i _ hN⟩
  refine ⟨?_, ?_⟩
  · intro i hi
    obtain ⟨face, hf, hidx⟩ := key i hi
    have hlt : i % materials.length < materials.length := Nat.mod_lt _ hN
    refine ⟨by simp [hf, hidx], ?_, ?_⟩
    · simp only [Mesh.faceMaterial, hf, hidx]
      rfl
    · simp [List.getElem?_eq_getElem hlt]
  · intro h4 h5
    obtain ⟨f0, hf0, h0⟩ := key 0 (by omega)
    obtain ⟨f4, hf4, h4i⟩ := key 4 (by omega)
    obtain ⟨f5, hf5, h5i⟩ := key 5 (by omega)
    simp only [List.getElem?_map, hf0, hf4, hf5, Option.map_some', h0, h4i, h5i, h4]
    decide

/-- Witness of C2: four materials on the sphere geometry of the spec. -/
theorem initSphereMesh_round_robin_witness :
    1 ≤ (Carousel.new (specHost 800 600) [10, 11, 12, 13]).materials.length ∧
    (Carousel.initSphereMesh (specHost 800 600) 6000 { width := 50, height := 50 }
        (Carousel.new (specHost 800 600) [10, 11, 12, 13]).materials).faceMaterial 5 =
      (Carousel.new (specHost 800 600) [10, 11, 12, 13]).materials[5 % 4]? :=
  ⟨by decide,
   ((initSphereMesh_round_robin (specHost 800 600) 6000 { width := 50, height := 50 }
      (Carousel.new (specHost 800 600) [10, 11, 12, 13]).materials (by decide)).1 5
        (by simp only [specHost, specSphereGeometry, List.length_replicate]; decide)).2.1⟩

/-- Counterexample to C3: on an empty video list the constructor returns a Carousel
whose material list is empty and whose 2500 sphere faces all carry the index `NaN`,
which selects no material. -/
theorem construct_empty_no_error :
    (Carousel.new (specHost 800 600) []).materials = [] ∧
    (Carousel.new (specHost 800 600) []).sphere.geometry.faces.length = 2500 ∧
    ∀ face ∈ (Carousel.new (specHost 800 600) []).sphere.geometry.faces,
      ¬ face.validIndex (Carousel.new (specHost 800 600) []).materials.length := by
  refine ⟨rfl, ?_, ?_⟩
  · simp only [Carousel.new, Carousel.initSphereMesh, assignMaterialIndex_length, specHost,
      specSphereGeometry, List.length_replicate]
  · intro face hface
    rintro ⟨j, _, hj⟩
    simp [Carousel.new, Carousel.initVideoPanes, Carousel.initVideoPanesFrom,
      Carousel.initMaterials] at hj

/-- C3, amended: on an empty video list the constructor raises nothing; it returns a
Carousel with no pane, no material, and a sphere that keeps every face of the geometry,
each with material index `NaN`. -/
theorem construct_empty_result (host : Host) :
    (Carousel.new host []).videoPanes = [] ∧
    (Carousel.new host []).materials = [] ∧
    (Carousel.new host []).sphere.materials = [] ∧
    (Carousel.new host []).sphere.geometry.faces.length =
      (host.SphereGeometry 3000 50 50).faces.length ∧
    ∀ face ∈ (Carousel.new host []).sphere.geometry.faces, face.materialIndex = none := by
  refine ⟨rfl, rfl, rfl, ?_, ?_⟩
  · simp only [Carousel.new, Carousel.initSphereMesh, assignMaterialIndex_length]
    norm_num
  · intro face hface
    simp only [Carousel.new, Carousel.initSphereMesh, Carousel.initVideoPanes,
      Carousel.initVideoPanesFrom, Carousel.initMaterials, List.length_nil] at hface
    obtain ⟨j, hj⟩ := assignMaterialIndex_mem _ _ _ _ hface
    rw [hj]
    rfl

/-! ## The animation tick -/

theorem animate_getElem (world : Video → VideoState) (c : Carousel) (k : Nat) :
    (Carousel.animate world c).videoPanes[k]? =
      (c.videoPanes[k]?).map
        (fun pane => pane.refresh c.videoDimensions (world pane.video)) := by
  simp [Carousel.animate]

theorem refresh_draw (dimensions : Dimensions) (state : VideoState) (pane : VideoPane)
    (h : state.readyState = state.HAVE_ENOUGH_DATA ∧ pane.lastDrawTime ≠ state.currentTime) :
    (pane.refresh dimensions state).canvas.ops = pane.canvas.ops ++
        [DrawOp.drawImage pane.video state.frame 0 0 dimensions.width dimensions.height] ∧
      (pane.refresh dimensions state).lastDrawTime = state.currentTime := by
  simp [VideoPane.refresh, h]

theorem refresh_skip (dimensions : Dimensions) (state : VideoState) (pane : VideoPane)
    (h : ¬ (state.readyState = state.HAVE_ENOUGH_DATA ∧
      pane.lastDrawTime ≠ state.currentTime)) :
    (pane.refresh dimensions state).canvas = pane.canvas ∧
      (pane.refresh dimensions state).lastDrawTime = pane.lastDrawTime := by
  unfold VideoPane.refresh
  rw [if_neg h]
  exact ⟨rfl, rfl⟩

theorem refresh_dirty (dimensions : Dimensions) (state : VideoState) (pane : VideoPane) :
    (pane.refresh dimensions state).texture.needsUpdate = true := by
  simp [VideoPane.refresh]

theorem refresh_identity (dimensions : Dimensions) (state : VideoState) (pane : VideoPane) :
    (pane.refresh dimensions state).identity = pane.identity := by
  unfold VideoPane.refresh VideoPane.identity
  split <;> rfl

/-- C4: a new pane has `lastDrawTime = -1`; and in a tick, for the pane at any index,
if its video reports `readyState = HAVE_ENOUGH_DATA` and a `currentTime` other than the
pane's `lastDrawTime`, the tick appends one `drawImage` of the video's frame at the pane
dimensions to the pane's canvas and sets `lastDrawTime` to that `currentTime`;
otherwise the canvas and `lastDrawTime` are as before. -/
theorem lastDrawTime_contract (world : Video → VideoState) (c : Carousel) (k : Nat)
    (pane : VideoPane) (hk : c.videoPanes[k]? = some pane) :
    (∀ id video dimensions segments,
      (VideoPane.new id video dimensions segments).lastDrawTime = -1) ∧
    ∃ pane', (Carousel.animate world c).videoPanes[k]? = some pane' ∧
      (((world pane.video).readyState = (world pane.video).HAVE_ENOUGH_DATA ∧
          (world pane.video).currentTime ≠ pane.lastDrawTime) →
        pane'.canvas.ops = pane.canvas.ops ++
            [DrawOp.drawImage pane.video (world pane.video).frame 0 0
              c.videoDimensions.width c.videoDimensions.height] ∧
          pane'.lastDrawTime = (world pane.video).currentTime) ∧
      (¬ ((world pane.video).readyState = (world pane.video).HAVE_ENOUGH_DATA ∧
          (world pane.video).currentTime ≠ pane.lastDrawTime) →
        pane'.canvas = pane.canvas ∧ pane'.lastDrawTime = pane.lastDrawTime) := by
  refine ⟨fun _ _ _ _ => rfl, pane.refresh c.videoDimensions (world pane.video), ?_, ?_, ?_⟩
  · rw [animate_getElem, hk]
    rfl
  · rintro ⟨h1, h2⟩
    exact refresh_draw _ _ _ ⟨h1, fun h => h2 h.symm⟩
  · intro h
    exact refresh_skip _ _ _ (fun h' => h ⟨h'.1, fun e => h'.2 e.symm⟩)

/-- C5: every tick flags the texture of every pane dirty, whatever the videos report,
and keeps the number of panes; the pane at any index is flagged after the tick, and if
its video is not at `HAVE_ENOUGH_DATA` it also keeps its canvas and its
`lastDrawTime`. -/
theorem not_ready_tick (world : Video → VideoState) (c : Carousel) :
    (∀ pane' ∈ (Carousel.animate world c).videoPanes, pane'.texture.needsUpdate = true) ∧
    (Carousel.animate world c).videoPanes.length = c.videoPanes.length ∧
    (∀ (k : Nat) (pane : VideoPane), c.videoPanes[k]? = some pane →
      ∃ pane', (Carousel.animate world c).videoPanes[k]? = some pane' ∧
        pane'.texture.needsUpdate = true ∧
        ((world pane.video).readyState ≠ (world pane.video).HAVE_ENOUGH_DATA →
          pane'.canvas = pane.canvas ∧ pane'.lastDrawTime = pane.lastDrawTime)) := by
  refine ⟨?_, ?_, ?_⟩
  · intro pane' hmem
    simp only [Carousel.animate, List.mem_map] at hmem
    obtain ⟨p, _, rfl⟩ := hmem
    exact refresh_dirty _ _ _
  · simp [Carousel.animate]
  · intro k pane hk
    refine ⟨pane.refresh c.videoDimensions (world pane.video), ?_, refresh_dirty _ _ _, ?_⟩
    · rw [animate_getElem, hk]
      rfl
    · intro hnot
      exact refresh_skip _ _ _ (fun h => hnot h.1)

/-- Witness of C4: the first pane of the sample carousel, on a playing video. -/
theorem lastDrawTime_contract_witness :
    sampleCarousel.videoPanes[0]? =
        some (VideoPane.new 0 10 { width := 1024, height := 1024 } { width := 50, height := 50 }) ∧
    ∃ pane', (Carousel.animate playingWorld sampleCarousel).videoPanes[0]? = some pane' ∧
      pane'.lastDrawTime = 1 / 2 := by
  obtain ⟨pane', h1, h2, _⟩ := (lastDrawTime_contract playingWorld sampleCarousel 0
    (VideoPane.new 0 10 { width := 1024, height := 1024 } { width := 50, height := 50 }) rfl).2
  refine ⟨rfl, pane', h1, (h2 ⟨rfl, ?_⟩).2⟩
  simp only [playingWorld, VideoPane.new]
  norm_num

/-- Witness of C5: on playing videos all four panes of the sample carousel are flagged;
on a stalled video the first pane is flagged and keeps `lastDrawTime = -1`. -/
theorem not_ready_tick_witness :
    (Carousel.animate playingWorld sampleCarousel).videoPanes.map
        (fun pane => pane.texture.needsUpdate) = [true, true, true, true] ∧
    (stalledWorld 10).readyState ≠ (stalledWorld 10).HAVE_ENOUGH_DATA ∧
    ∃ pane', (Carousel.animate stalledWorld sampleCarousel).videoPanes[0]? = some pane' ∧
      pane'.lastDrawTime = (-1 : ℚ) ∧ pane'.texture.needsUpdate = true := by
  have hall := (not_ready_tick playingWorld sampleCarousel).1
  have hlen := (not_ready_tick playingWorld sampleCarousel).2.1
  obtain ⟨pane', h1, h2, h3⟩ := (not_ready_tick stalledWorld sampleCarousel).2.2 0
    (VideoPane.new 0 10 { width := 1024, height := 1024 } { width := 50, height := 50 }) rfl
  refine ⟨?_, by decide, pane', h1, (h3 (by decide)).2.trans rfl, h2⟩
  have hlen4 : (Carousel.animate playingWorld sampleCarousel).videoPanes.length = 4 :=
    hlen.trans rfl
  have hmap : ∀ flag ∈ (Carousel.animate playingWorld sampleCarousel).videoPanes.map
      (fun pane => pane.texture.needsUpdate), flag = true := by
    intro flag hflag
    obtain ⟨q, hq, rfl⟩ := List.mem_map.mp hflag
    exact hall q hq
  have hrep := List.eq_replicate_of_mem hmap
  rw [List.length_map, hlen4] at hrep
  exact hrep

/-! ## Rotation -/

theorem animate_rotation (world : Video → VideoState) (c : Carousel) :
    (Carousel.animate world c).sphere.rotationY = tickAngle c.sphere.rotationY := rfl

theorem run_cons (world : Video → VideoState) (worlds : List (Video → VideoState))
    (c : Carousel) :
    Carousel.run (world :: worlds) c = Carousel.run worlds (Carousel.animate world c) := rfl

theorem run_rotation (worlds : List (Video → VideoState)) (c : Carousel) :
    (Carousel.run worlds c).sphere.rotationY =
      Nat.iterate tickAngle worlds.length c.sphere.rotationY := by
  induction worlds generalizing c with
  | nil => rfl
  | cons w ws ih =>
    rw [run_cons, ih, List.length_cons, Function.iterate_succ_apply, animate_rotation]

theorem refresh_video (dimensions : Dimensions) (state : VideoState) (pane : VideoPane) :
    (pane.refresh dimensions state).video = pane.video := by
  unfold VideoPane.refresh
  split <;> rfl

theorem animate_not_ready (world : Video → VideoState) (c : Carousel)
    (h : ∀ pane ∈ c.videoPanes,
      (world pane.video).readyState ≠ (world pane.video).HAVE_ENOUGH_DATA) :
    (Carousel.animate world c).videoPanes.map
        (fun pane => (pane.video, pane.canvas, pane.lastDrawTime)) =
      c.videoPanes.map (fun pane => (pane.video, pane.canvas, pane.lastDrawTime)) := by
  simp only [Carousel.animate, List.map_map]
  apply List.map_congr_left
  intro pane hp
  have hs := refresh_skip c.videoDimensions (world pane.video) pane (fun hh => h pane hp hh.1)
  simp [Function.comp, refresh_video, hs.1, hs.2]

theorem run_not_ready (worlds : List (Video → VideoState)) (c : Carousel)
    (h : ∀ world ∈ worlds, ∀ pane ∈ c.videoPanes,
      (world pane.video).readyState ≠ (world pane.video).HAVE_ENOUGH_DATA) :
    (Carousel.run worlds c).videoPanes.map
        (fun pane => (pane.video, pane.canvas, pane.lastDrawTime)) =
      c.videoPanes.map (fun pane => (pane.video, pane.canvas, pane.lastDrawTime)) := by
  induction worlds generalizing c with
  | nil => rfl
  | cons w ws ih =>
    have hw := animate_not_ready w c (h w (List.mem_cons_self _ _))
    rw [run_cons, ih, hw]
    intro world hworld pane hpane
    have hvid : pane.video ∈ (Carousel.animate w c).videoPanes.map (fun p => p.video) :=
      List.mem_map_of_mem _ hpane
    have hv : (Carousel.animate w c).videoPanes.map (fun p => p.video) =
        c.videoPanes.map (fun p => p.video) := by
      have := congrArg (List.map Prod.fst) hw
      simpa [List.map_map, Function.comp] using this
    rw [hv, List.mem_map] at hvid
    obtain ⟨q, hq, hqv⟩ := hvid
    rw [← hqv]
    exact h world (List.mem_cons_of_mem _ hworld) q hq

theorem rotationStep_value : rotationStep = mkRat 7378697629483821 (2 ^ 65) := by
  decide!

theorem six_ticks_from_zero :
    ∀ n, n ≤ 6 → Nat.iterate tickAngle n 0 = jsSub 0 (jsMul (n : ℚ) rotationStep) := by
  intro n hn
  interval_cases n <;> decide!

/-- Counterexample to C6: seven ticks of the sample carousel, which starts at angle 0,
leave the angle at -807045053224793 / 2 ^ 59 (printed -0.0014000000000000002).  That is
neither 0 - 7 × 0.0002 with the decimal 0.0002, nor with the double that the literal
`0.0002` denotes, nor the double that JavaScript computes for `0 - 7 * 0.0002`. -/
theorem seven_ticks_rotation :
    sampleCarousel.sphere.rotationY = 0 ∧
    (Carousel.run (List.replicate 7 stalledWorld) sampleCarousel).sphere.rotationY =
      -(mkRat 807045053224793 (2 ^ 59)) ∧
    (Carousel.run (List.replicate 7 stalledWorld) sampleCarousel).sphere.rotationY ≠
      sampleCarousel.sphere.rotationY - 7 * (2 / 10000) ∧
    (Carousel.run (List.replicate 7 stalledWorld) sampleCarousel).sphere.rotationY ≠
      sampleCarousel.sphere.rotationY - 7 * rotationStep ∧
    (Carousel.run (List.replicate 7 stalledWorld) sampleCarousel).sphere.rotationY ≠
      jsSub sampleCarousel.sphere.rotationY (jsMul 7 rotationStep) := by
  have h0 : sampleCarousel.sphere.rotationY = 0 := rfl
  rw [run_rotation, h0, List.length_replicate]
  decide!

/-- C6, amended: a tick replaces the sphere's angle `a` by the double nearest to
`a - 0.0002`, whatever the videos report; after n ticks the angle is the n-th iterate of
that rounded subtraction; from angle 0 and for up to six ticks this is the double
JavaScript computes for `0 - n * 0.0002`; and through ticks in which no video is at
`HAVE_ENOUGH_DATA` (three of them in particular) every pane keeps its canvas and its
`lastDrawTime`. -/
theorem rotation_per_tick (worlds : List (Video → VideoState)) (c : Carousel)
    (hzero : c.sphere.rotationY = 0)
    (hstalled : ∀ world ∈ worlds, ∀ pane ∈ c.videoPanes,
      (world pane.video).readyState ≠ (world pane.video).HAVE_ENOUGH_DATA) :
    (∀ (world : Video → VideoState) (c' : Carousel),
      (Carousel.animate world c').sphere.rotationY =
        roundDouble (c'.sphere.rotationY - rotationStep)) ∧
    (∀ (worlds' : List (Video → VideoState)) (c' : Carousel),
      (Carousel.run worlds' c').sphere.rotationY =
        Nat.iterate (fun a => roundDouble (a - rotationStep)) worlds'.length
          c'.sphere.rotationY) ∧
    (worlds.length ≤ 6 →
      (Carousel.run worlds c).sphere.rotationY =
        jsSub c.sphere.rotationY (jsMul (worlds.length : ℚ) rotationStep)) ∧
    (worlds.length = 3 →
      (Carousel.run worlds c).sphere.rotationY = jsSub c.sphere.rotationY (jsMul 3 rotationStep)) ∧
    (Carousel.run worlds c).videoPanes.map (fun pane => pane.canvas) =
      c.videoPanes.map (fun pane => pane.canvas) ∧
    (Carousel.run worlds c).videoPanes.map (fun pane => pane.lastDrawTime) =
      c.videoPanes.map (fun pane => pane.lastDrawTime) := by
  have hsix : worlds.length ≤ 6 →
      (Carousel.run worlds c).sphere.rotationY =
        jsSub c.sphere.rotationY (jsMul (worlds.length : ℚ) rotationStep) := by
    intro h6
    rw [run_rotation, hzero]
    exact six_ticks_from_zero _ h6
  have hkeep := run_not_ready worlds c hstalled
  refine ⟨fun _ _ => rfl, fun ws c' => run_rotation ws c', hsix, ?_, ?_, ?_⟩
  · intro h3
    have := hsix (by omega)
    rw [h3] at this
    exact_mod_cast this
  · have := congrArg (List.map (fun t : Video × Canvas × ℚ => t.2.1)) hkeep
    simpa [List.map_map, Function.comp] using this
  · have := congrArg (List.map (fun t : Video × Canvas × ℚ => t.2.2)) hkeep
    simpa [List.map_map, Function.comp] using this

/-- Witness of C6, amended: three stalled ticks of the sample carousel. -/
theorem rotation_per_tick_witness :
    sampleCarousel.sphere.rotationY = 0 ∧
    (Carousel.run [stalledWorld, stalledWorld, stalledWorld] sampleCarousel).sphere.rotationY =
      jsSub sampleCarousel.sphere.rotationY (jsMul 3 rotationStep) ∧
    (Carousel.run [stalledWorld, stalledWorld, stalledWorld] sampleCarousel).videoPanes.map
        (fun pane => pane.canvas) =
      sampleCarousel.videoPanes.map (fun pane => pane.canvas) :=
  have h := rotation_per_tick [stalledWorld, stalledWorld, stalledWorld] sampleCarousel rfl
    (by
      intro world hworld pane _
      simp only [List.mem_cons, List.mem_singleton, List.not_mem_nil, or_false, or_self]
        at hworld
      subst hworld
      show (2 : Nat) ≠ 4
      decide)
  ⟨rfl, h.2.2.2.1 rfl, h.2.2.2.2.1⟩

/-! ## Face count, camera placement, invariant, balance -/

/-- C7: with the sphere geometry of the spec, the constructed sphere has
`sphereSegments.width × sphereSegments.height = 2500` faces, the value the constructor
stores in `sphereFaces`. -/
theorem sphere_face_count (innerWidth innerHeight : Nat) (videos : List Video) :
    (Carousel.new (specHost innerWidth innerHeight) videos).sphereSegments =
      { width := 50, height := 50 } ∧
    (Carousel.new (specHost innerWidth innerHeight) videos).sphereFaces = 2500 ∧
    (Carousel.new (specHost innerWidth innerHeight) videos).sphere.geometry.faces.length =
      (Carousel.new (specHost innerWidth innerHeight) videos).sphereSegments.width *
        (Carousel.new (specHost innerWidth innerHeight) videos).sphereSegments.height ∧
    (Carousel.new (specHost innerWidth innerHeight) videos).sphere.geometry.faces.length =
      (Carousel.new (specHost innerWidth innerHeight) videos).sphereFaces ∧
    (Carousel.new (specHost innerWidth innerHeight) videos).sphere.geometry.faces.length =
      2500 := by
  have h : (Carousel.new (specHost innerWidth innerHeight) videos).sphere.geometry.faces.length
      = 2500 := by
    simp only [Carousel.new, Carousel.initSphereMesh, assignMaterialIndex_length, specHost,
      specSphereGeometry, List.length_replicate]
  exact ⟨rfl, rfl, h, h, h⟩

theorem setupScene_constants (host : Host) (videos : List Video)
    (hhost : ∀ r w h, (host.SphereGeometry r w h).radius = r) :
    (Carousel.new host videos).setupScene.cameraPoint = (0, 0, 1500) ∧
    (Carousel.new host videos).setupScene.sphereCentre = (0, 0, 3000) ∧
    (Carousel.new host videos).setupScene.sphereRadius = 3000 := by
  refine ⟨?_, ?_, ?_⟩
  · simp only [Carousel.cameraPoint, Carousel.setupScene, Carousel.new, Carousel.initCamera]
    norm_num
  · simp only [Carousel.sphereCentre, Carousel.setupScene, Carousel.new]
    norm_num
  · simp only [Carousel.sphereRadius, Carousel.setupScene, Carousel.new,
      Carousel.initSphereMesh, hhost]
    norm_num

/-- Counterexample to C8: the sphere is not wholly between the near and the far plane.
For the sample carousel after `setupScene`, the surface point (0, 0, 6000) has depth
-4500 for a camera looking towards negative z, and the surface point (0, 0, 0) has depth
-1500 for a camera looking towards positive z; both are below the near plane at 1. -/
theorem sphere_behind_camera :
    distSq ((0 : ℝ), (0 : ℝ), (6000 : ℝ)) sampleCarousel.setupScene.sphereCentre =
      sampleCarousel.setupScene.sphereRadius ^ 2 ∧
    sampleCarousel.setupScene.viewDepth (-1) ((0 : ℝ), (0 : ℝ), (6000 : ℝ)) = -4500 ∧
    sampleCarousel.setupScene.viewDepth (-1) ((0 : ℝ), (0 : ℝ), (6000 : ℝ)) <
      ((sampleCarousel.setupScene.camera.near : ℚ) : ℝ) ∧
    distSq ((0 : ℝ), (0 : ℝ), (0 : ℝ)) sampleCarousel.setupScene.sphereCentre =
      sampleCarousel.setupScene.sphereRadius ^ 2 ∧
    sampleCarousel.setupScene.viewDepth 1 ((0 : ℝ), (0 : ℝ), (0 : ℝ)) = -1500 ∧
    sampleCarousel.setupScene.viewDepth 1 ((0 : ℝ), (0 : ℝ), (0 : ℝ)) <
      ((sampleCarousel.setupScene.camera.near : ℚ) : ℝ) := by
  obtain ⟨hcam, hcentre, hrad⟩ :=
    setupScene_constants (specHost 800 600) [10, 11, 12, 13] (fun _ _ _ => rfl)
  have hnear : sampleCarousel.setupScene.camera.near = 1 := rfl
  have hcam' : sampleCarousel.setupScene.cameraPoint = (0, 0, 1500) := hcam
  have hcentre' : sampleCarousel.setupScene.sphereCentre = (0, 0, 3000) := hcentre
  have hrad' : sampleCarousel.setupScene.sphereRadius = 3000 := hrad
  simp only [Carousel.viewDepth, hcam', hcentre', hrad', hnear, distSq]
  norm_num

/-- C8, amended: on a host whose `SphereGeometry` keeps the radius it is given, after
construction and `setupScene` the camera is at z = 1500, the sphere mesh has centre
z = 3000 and geometry radius 3000, and the camera is strictly inside.  A point at
distance 3000 from the centre is between 1500 and 4500 from the camera, so its distance
is between the near value 1 and the far value 6000.  A point at distance at most 3000
from the centre (the closed ball, which holds the flat faces of a mesh inscribed in the
sphere) is at most 4500 from the camera and has depth at most 4500 along either
direction of the view axis, below the far plane; no lower bound is stated for it. -/
theorem camera_inside_sphere (host : Host) (videos : List Video)
    (hhost : ∀ r w h, (host.SphereGeometry r w h).radius = r) (p : ℝ × ℝ × ℝ) :
    (Carousel.new host videos).setupScene.camera.positionZ = 1500 ∧
    (Carousel.new host videos).setupScene.sphere.positionZ = 3000 ∧
    (Carousel.new host videos).setupScene.sphere.geometry.radius = 3000 ∧
    (Carousel.new host videos).setupScene.camera.near = 1 ∧
    (Carousel.new host videos).setupScene.camera.far = 6000 ∧
    distSq (Carousel.new host videos).setupScene.cameraPoint
        (Carousel.new host videos).setupScene.sphereCentre <
      (Carousel.new host videos).setupScene.sphereRadius ^ 2 ∧
    (distSq p (Carousel.new host videos).setupScene.sphereCentre =
        (Carousel.new host videos).setupScene.sphereRadius ^ 2 →
      1500 ≤ Real.sqrt (distSq p (Carousel.new host videos).setupScene.cameraPoint) ∧
      Real.sqrt (distSq p (Carousel.new host videos).setupScene.cameraPoint) ≤ 4500 ∧
      (((Carousel.new host videos).setupScene.camera.near : ℚ) : ℝ) ≤
        Real.sqrt (distSq p (Carousel.new host videos).setupScene.cameraPoint) ∧
      Real.sqrt (distSq p (Carousel.new host videos).setupScene.cameraPoint) ≤
        (((Carousel.new host videos).setupScene.camera.far : ℚ) : ℝ)) ∧
    (distSq p (Carousel.new host videos).setupScene.sphereCentre ≤
        (Carousel.new host videos).setupScene.sphereRadius ^ 2 →
      Real.sqrt (distSq p (Carousel.new host videos).setupScene.cameraPoint) ≤ 4500 ∧
      ∀ direction : ℝ, direction = 1 ∨ direction = -1 →
        (Carousel.new host videos).setupScene.viewDepth direction p ≤ 4500 ∧
        (Carousel.new host videos).setupScene.viewDepth direction p <
          (((Carousel.new host videos).setupScene.camera.far : ℚ) : ℝ)) := by
  obtain ⟨hcam, hcentre, hrad⟩ := setupScene_constants host videos hhost
  have hposZ : (Carousel.new host videos).setupScene.sphere.positionZ = 3000 := by
    simp only [Carousel.setupScene, Carousel.new]
    norm_num
  have hradius : (Carousel.new host videos).setupScene.sphere.geometry.radius = 3000 := by
    simp only [Carousel.setupScene, Carousel.new, Carousel.initSphereMesh, hhost]
    norm_num
  have hnear : (Carousel.new host videos).setupScene.camera.near = 1 := rfl
  have hfar : (Carousel.new host videos).setupScene.camera.far = 6000 := rfl
  refine ⟨rfl, hposZ, hradius, hnear, hfar, ?_, ?_, ?_⟩
  · rw [hcam, hcentre, hrad]
    simp only [distSq]
    norm_num
  · intro hp
    rw [hcentre, hrad] at hp
    rw [hcam, hnear, hfar]
    obtain ⟨x, y, z⟩ := p
    simp only [distSq] at hp ⊢
    push_cast
    have hx : 0 ≤ (x - 0) ^ 2 := sq_nonneg _
    have hy : 0 ≤ (y - 0) ^ 2 := sq_nonneg _
    have hz : 0 ≤ (z - 3000) ^ 2 := sq_nonneg _
    have hz0 : 0 ≤ z := by nlinarith
    have hz1 : z ≤ 6000 := by nlinarith
    have hd : (x - 0) ^ 2 + (y - 0) ^ 2 + (z - 1500) ^ 2 = 2250000 + 3000 * z := by
      nlinarith
    have hlo : (1500 : ℝ) ≤ Real.sqrt ((x - 0) ^ 2 + (y - 0) ^ 2 + (z - 1500) ^ 2) := by
      apply Real.le_sqrt_of_sq_le
      rw [hd]
      nlinarith
    have hhi : Real.sqrt ((x - 0) ^ 2 + (y - 0) ^ 2 + (z - 1500) ^ 2) ≤ 4500 := by
      rw [Real.sqrt_le_left (by norm_num)]
      rw [hd]
      nlinarith
    exact ⟨hlo, hhi, by linarith, by linarith⟩
  · intro hp
    rw [hcentre, hrad] at hp
    obtain ⟨x, y, z⟩ := p
    simp only [distSq] at hp
    have hx : 0 ≤ (x - 0) ^ 2 := sq_nonneg _
    have hy : 0 ≤ (y - 0) ^ 2 := sq_nonneg _
    have hz0 : 0 ≤ z := by nlinarith
    have hz1 : z ≤ 6000 := by nlinarith
    refine ⟨?_, ?_⟩
    · rw [hcam]
      simp only [distSq]
      rw [Real.sqrt_le_left (by norm_num)]
      nlinarith
    · intro direction hdir
      rw [hfar]
      simp only [Carousel.viewDepth, hcam]
      push_cast
      rcases hdir with h | h <;> rw [h] <;> constructor <;> linarith

/-- Witness of C8, amended: the origin is a point of the sphere of the sample carousel,
at least 1500 from the camera. -/
theorem camera_inside_sphere_witness :
    distSq ((0 : ℝ), (0 : ℝ), (0 : ℝ)) sampleCarousel.setupScene.sphereCentre =
      sampleCarousel.setupScene.sphereRadius ^ 2 ∧
    1500 ≤ Real.sqrt (distSq ((0 : ℝ), (0 : ℝ), (0 : ℝ))
      sampleCarousel.setupScene.cameraPoint) :=
  have hp : distSq ((0 : ℝ), (0 : ℝ), (0 : ℝ)) sampleCarousel.setupScene.sphereCentre =
      sampleCarousel.setupScene.sphereRadius ^ 2 := by
    obtain ⟨_, hcentre, hrad⟩ :=
      setupScene_constants (specHost 800 600) [10, 11, 12, 13] (fun _ _ _ => rfl)
    have hcentre' : sampleCarousel.setupScene.sphereCentre = (0, 0, 3000) := hcentre
    have hrad' : sampleCarousel.setupScene.sphereRadius = 3000 := hrad
    rw [hcentre', hrad']
    simp only [distSq]
    norm_num
  ⟨hp, ((camera_inside_sphere (specHost 800 600) [10, 11, 12, 13] (fun _ _ _ => rfl)
    (0, 0, 0)).2.2.2.2.2.2.1 hp).1⟩

theorem invariant_new (host : Host) (videos : List Video) (hN : 1 ≤ videos.length) :
    (Carousel.new host videos).Invariant := by
  have hlen : (Carousel.new host videos).materials.length = videos.length := by
    simp [Carousel.new, Carousel.initVideoPanes, initMaterials_eq_map,
      initVideoPanesFrom_length]
  refine ⟨?_, ?_⟩
  · simp [Carousel.new, Carousel.initVideoPanes, initMaterials_eq_map]
  · intro face hface
    rw [hlen]
    have hface' : face ∈ Carousel.assignMaterialIndex
        (Carousel.new host videos).materials.length 0
        (host.SphereGeometry (6000 / 2) 50 50).faces := hface
    obtain ⟨j, hj⟩ := assignMaterialIndex_mem _ _ _ _ hface'
    rw [hlen, jsMod_of_pos j _ hN] at hj
    exact ⟨j % videos.length, hj, Nat.mod_lt _ hN⟩

theorem invariant_setupScene (c : Carousel) (h : c.Invariant) : c.setupScene.Invariant := h

theorem invariant_animate (world : Video → VideoState) (c : Carousel) (h : c.Invariant) :
    (Carousel.animate world c).Invariant := by
  refine ⟨?_, h.2⟩
  have := h.1
  simpa [Carousel.animate] using this

theorem invariant_run (worlds : List (Video → VideoState)) (c : Carousel)
    (h : c.Invariant) : (Carousel.run worlds c).Invariant := by
  induction worlds generalizing c with
  | nil => exact h
  | cons w ws ih => exact ih _ (invariant_animate w c h)

/-- C9: a Carousel constructed from N ≥ 1 videos has as many materials as panes and
every sphere face points at one of them; `setupScene` and `animate` preserve this from
any state, so it holds after `setupScene` and any number of ticks; and neither
operation changes the material list, the faces, or the identity (allocation, video,
material) of any pane, nor the number of panes. -/
theorem invariant_lifecycle (host : Host) (videos : List Video) (hN : 1 ≤ videos.length) :
    (Carousel.new host videos).Invariant ∧
    (∀ c : Carousel, c.Invariant →
      c.setupScene.Invariant ∧
      c.setupScene.videoPanes = c.videoPanes ∧
      c.setupScene.materials = c.materials ∧
      c.setupScene.sphere.materials = c.sphere.materials ∧
      c.setupScene.sphere.geometry = c.sphere.geometry) ∧
    (∀ (world : Video → VideoState) (c : Carousel), c.Invariant →
      (Carousel.animate world c).Invariant ∧
      (Carousel.animate world c).videoPanes.length = c.videoPanes.length ∧
      (Carousel.animate world c).videoPanes.map VideoPane.identity =
        c.videoPanes.map VideoPane.identity ∧
      (Carousel.animate world c).materials = c.materials ∧
      (Carousel.animate world c).sphere.materials = c.sphere.materials ∧
      (Carousel.animate world c).sphere.geometry = c.sphere.geometry) ∧
    (∀ worlds : List (Video → VideoState),
      (Carousel.run worlds (Carousel.new host videos).setupScene).Invariant) := by
  refine ⟨invariant_new host videos hN, ?_, ?_, ?_⟩
  · intro c h
    exact ⟨h, rfl, rfl, rfl, rfl⟩
  · intro world c h
    refine ⟨invariant_animate world c h, ?_, ?_, rfl, rfl, rfl⟩
    · simp [Carousel.animate]
    · simp only [Carousel.animate, List.map_map]
      apply List.map_congr_left
      intro pane _
      exact refresh_identity _ _ _
  · intro worlds
    exact invariant_run worlds _ (invariant_setupScene _ (invariant_new host videos hN))

/-- Witness of C9: the sample carousel of four videos. -/
theorem invariant_lifecycle_witness :
    1 ≤ [10, 11, 12, 13].length ∧ sampleCarousel.Invariant ∧
    (Carousel.run [playingWorld, stalledWorld] sampleCarousel.setupScene).Invariant :=
  ⟨by decide,
   (invariant_lifecycle (specHost 800 600) [10, 11, 12, 13] (by decide)).1,
   (invariant_lifecycle (specHost 800 600) [10, 11, 12, 13] (by decide)).2.2.2
     [playingWorld, stalledWorld]⟩

theorem countP_assignMaterialIndex (n k : Nat) (hn : 0 < n) (faces : List Face) (i : Nat) :
    (Carousel.assignMaterialIndex n i faces).countP (fun face => face.materialIndex = some k) +
        Nat.count (fun j => j % n = k) i =
      Nat.count (fun j => j % n = k) (i + faces.length) := by
  induction faces generalizing i with
  | nil => simp [Carousel.assignMaterialIndex]
  | cons f fs ih =>
    have hstep := ih (i + 1)
    rw [Nat.count_succ] at hstep
    have hlen : i + (f :: fs).length = i + 1 + fs.length := by
      simp only [List.length_cons]
      omega
    rw [hlen, ← hstep]
    simp only [Carousel.assignMaterialIndex, List.countP_cons, jsMod_of_pos i n hn,
      Option.some.injEq, decide_eq_true_eq]
    omega

theorem count_mod_eq_modEq (n k : Nat) (hk : k < n) (b : Nat) :
    Nat.count (fun j => j % n = k) b = Nat.count (fun j => j ≡ k [MOD n]) b := by
  induction b with
  | zero => simp
  | succ b ih =>
    rw [Nat.count_succ, Nat.count_succ, ih]
    have hiff : (b ≡ k [MOD n]) ↔ b % n = k := by
      unfold Nat.ModEq
      rw [Nat.mod_eq_of_lt hk]
    by_cases hb : b % n = k
    · rw [if_pos hb, if_pos (hiff.mpr hb)]
    · rw [if_neg hb, if_neg (fun hh => hb (hiff.mp hh))]

theorem count_mod_eq (n k : Nat) (hn : 0 < n) (hk : k < n) (b : Nat) :
    Nat.count (fun j => j % n = k) b = b / n + if k < b % n then 1 else 0 := by
  have h := Nat.count_modEq_card (b := b) hn k
  rw [Nat.mod_eq_of_lt hk] at h
  rw [count_mod_eq_modEq n k hk b, h]

theorem count_mod_eq_ceil (n k : Nat) (hn : 0 < n) (hk : k < n) (b : Nat) :
    ((Nat.count (fun j => j % n = k) b : ℕ) : ℤ) = ⌈((b : ℚ) - (k : ℚ)) / (n : ℚ)⌉ := by
  have h := Nat.count_modEq_card_eq_ceil (b := b) hn k
  rw [Nat.mod_eq_of_lt hk] at h
  rw [count_mod_eq_modEq n k hk b, h]

theorem facesWithMaterial_eq_count (host : Host) (sphereDepth : ℚ) (sphereSegments : Dimensions)
    (materials : List Material) (hN : 1 ≤ materials.length) (k : Nat) :
    (Carousel.initSphereMesh host sphereDepth sphereSegments materials).facesWithMaterial k =
      Nat.count (fun j => j % materials.length = k)
        (host.SphereGeometry (sphereDepth / 2) sphereSegments.width
          sphereSegments.height).faces.length := by
  have h := countP_assignMaterialIndex materials.length k hN
    (host.SphereGeometry (sphereDepth / 2) sphereSegments.width sphereSegments.height).faces 0
  rw [Nat.count_zero, Nat.add_zero, Nat.zero_add] at h
  exact h

/-- C10: with N ≥ 1 materials and F faces, `initSphereMesh` gives material `k < N` to
`⌈(F - k) / N⌉` faces; so no material has more than one face more than another, every
material with `k < F` has a face, and with 2500 faces and 4 materials each material has
625 faces. -/
theorem round_robin_balanced (host : Host) (sphereDepth : ℚ) (sphereSegments : Dimensions)
    (materials : List Material) (hN : 1 ≤ materials.length) (k : Nat)
    (hk : k < materials.length) :
    (((Carousel.initSphereMesh host sphereDepth sphereSegments materials).facesWithMaterial k
        : ℕ) : ℤ) =
      ⌈(((host.SphereGeometry (sphereDepth / 2) sphereSegments.width
          sphereSegments.height).faces.length : ℚ) - (k : ℚ)) / (materials.length : ℚ)⌉ ∧
    (∀ j, j < materials.length →
      (Carousel.initSphereMesh host sphereDepth sphereSegments materials).facesWithMaterial j ≤
        (Carousel.initSphereMesh host sphereDepth sphereSegments materials).facesWithMaterial k
          + 1 ∧
      (Carousel.initSphereMesh host sphereDepth sphereSegments materials).facesWithMaterial k ≤
        (Carousel.initSphereMesh host sphereDepth sphereSegments materials).facesWithMaterial j
          + 1) ∧
    (k < (host.SphereGeometry (sphereDepth / 2) sphereSegments.width
        sphereSegments.height).faces.length →
      1 ≤ (Carousel.initSphereMesh host sphereDepth sphereSegments materials).facesWithMaterial
        k) ∧
    ((host.SphereGeometry (sphereDepth / 2) sphereSegments.width
        sphereSegments.height).faces.length = 2500 →
      materials.length = 4 →
      (Carousel.initSphereMesh host sphereDepth sphereSegments materials).facesWithMaterial k
        = 625) := by
  have hform : ∀ j, j < materials.length →
      (Carousel.initSphereMesh host sphereDepth sphereSegments materials).facesWithMaterial j =
        (host.SphereGeometry (sphereDepth / 2) sphereSegments.width
            sphereSegments.height).faces.length / materials.length +
          if j < (host.SphereGeometry (sphereDepth / 2) sphereSegments.width
            sphereSegments.height).faces.length % materials.length then 1 else 0 := by
    intro j hj
    rw [facesWithMaterial_eq_count host sphereDepth sphereSegments materials hN j,
      count_mod_eq _ j hN hj]
  refine ⟨?_, ?_, ?_, ?_⟩
  · rw [facesWithMaterial_eq_count host sphereDepth sphereSegments materials hN k]
    exact count_mod_eq_ceil _ k hN hk _
  · intro j hj
    rw [hform j hj, hform k hk]
    constructor <;> split_ifs <;> omega
  · intro hF
    rw [hform k hk]
    generalize (host.SphereGeometry (sphereDepth / 2) sphereSegments.width
      sphereSegments.height).faces.length = F at hF
    by_cases hlt : F < materials.length
    · rw [Nat.mod_eq_of_lt hlt, if_pos hF]
      exact Nat.le_add_left 1 _
    · have hpos : 0 < F / materials.length := Nat.div_pos (by omega) hN
      exact Nat.le_trans hpos (Nat.le_add_right _ _)
  · intro hF h4
    rw [hform k hk, hF, h4]
    simp

/-- Witness of C10: material 3 of the sample carousel has 625 of the 2500 faces. -/
theorem round_robin_balanced_witness :
    1 ≤ sampleCarousel.materials.length ∧ 3 < sampleCarousel.materials.length ∧
    (Carousel.initSphereMesh (specHost 800 600) 6000 { width := 50, height := 50 }
      sampleCarousel.materials).facesWithMaterial 3 = 625 :=
  ⟨by decide, by decide,
   (round_robin_balanced (specHost 800 600) 6000 { width := 50, height := 50 }
      sampleCarousel.materials (by decide) 3 (by decide)).2.2.2
        (by simp only [specHost, specSphereGeometry, List.length_replicate])
        (by decide)⟩

end VideoWall
